import Mathlib

/-!
Verification of the kipsunya_biz order/cart core.

This file shallowly embeds the order-lifecycle and cart-to-order code of the
repository (Django, `server/orders` and `server/cart` apps) as executable Lean
definitions, and proves or refutes the frozen claims about it.

Conventions of the embedding:
* Python `Decimal` arithmetic on the monetary code paths here is exact
  (multiplication of finite decimals, division by 100): we model money as `ℚ`.
* Database rows are Lean structures; tables are lists; `save` methods are
  functions on the structures mirroring the Python `save` overrides.
* Fallible request handlers are `Except String`-valued functions; the handler
  returning an error before any mutation is modelled by the caller keeping the
  original state.
* `django.db.transaction.atomic` is modelled by its semantics: the wrapped
  body either commits wholesale or the state reverts to the snapshot taken at
  entry.  Failure points inside the body are injected through a `FailureSpec`
  oracle, so theorems quantify over every possible failure of a step.
* `cart/views.py` defines `convert_cart_to_order` twice; Python binds the
  second definition (lines 1250–1361), so that is the operative checkout embedded
  here.  Likewise the second definitions of `Cart.subtotal` / `CartItem.total_price`
  in `cart/models.py` are the bound ones.
-/

namespace Kipsunya

/-- Order status enum, `Order.ORDER_STATUS_CHOICES` in `orders/models.py`. -/
inductive OrderStatus where
  | pending
  | confirmed
  | processing
  | shipped
  | delivered
  | cancelled
  | refunded
deriving DecidableEq, Repr

/-- Actor roles relevant to the order endpoints (`UserProfile.role`). -/
inductive Role where
  | customer
  | vendor
  | admin
deriving DecidableEq, Repr

/-- The hard-coded transition table of `_can_update_status`
(`orders/views.py` lines 348–360). -/
def can_update_status (current new : OrderStatus) : Bool :=
  let nexts : List OrderStatus :=
    match current with
    | .pending => [.confirmed, .cancelled]
    | .confirmed => [.processing, .cancelled]
    | .processing => [.shipped, .cancelled]
    | .shipped => [.delivered, .cancelled]
    | .delivered => [.refunded]
    | .cancelled => []
    | .refunded => []
  nexts.contains new

/-- A row of the `OrderItem` model (`orders/models.py` lines 116–162).
Monetary fields are exact rationals. -/
structure OrderItem where
  vendor : Nat
  productName : String
  unitPrice : ℚ
  quantity : Nat
  totalPrice : ℚ
  commissionRate : ℚ
  platformCommission : ℚ
  vendorEarnings : ℚ
deriving DecidableEq, Repr

/-- `OrderItem.save` (`orders/models.py` lines 156–162): recomputes the three
derived monetary fields from `unit_price`, `quantity` and `commission_rate`.
Note the Python code applies no rounding or quantization here. -/
def OrderItem.save (it : OrderItem) : OrderItem :=
  let totalPrice := it.unitPrice * it.quantity
  let platformCommission := totalPrice * it.commissionRate / 100
  let vendorEarnings := totalPrice - platformCommission
  { it with totalPrice, platformCommission, vendorEarnings }

/-- Rounding to 2 decimal places, as the spec's `round(x, 2)`. Used only to
state the spec's claimed equations; the inputs of the theorems that use it are
chosen away from ties so every standard tie-breaking mode agrees with `round`. -/
def round2 (x : ℚ) : ℚ := ((round (x * 100) : ℤ) : ℚ) / 100

/-- A row of `OrderStatusHistory` (`orders/models.py` lines 165–180). -/
structure OrderStatusHistory where
  previousStatus : Option OrderStatus
  newStatus : OrderStatus
  changedBy : Option Nat
  notes : String
deriving DecidableEq, Repr

/-- The fields of an `Order` row the lifecycle endpoints touch
(`orders/models.py` lines 10–97). Timestamps are abstract instants (`Nat`). -/
structure Order where
  status : OrderStatus
  subtotal : ℚ
  taxAmount : ℚ
  shippingFee : ℚ
  discountAmount : ℚ
  totalAmount : ℚ
  confirmedAt : Option Nat
  shippedAt : Option Nat
  deliveredAt : Option Nat
  trackingNumber : Option String
deriving DecidableEq, Repr

/-- `update_order_status` (`orders/views.py` lines 270–345): the PUT
status-update endpoint.  `vendorHasItems` is `order.items.filter(vendor=user).exists()`;
`now` is `timezone.now()`.  Returns the saved order row and history table, or the
error response's message. -/
def update_order_status (role : Role) (vendorHasItems : Bool) (order : Order)
    (history : List OrderStatusHistory) (changedBy : Nat) (newStatus : OrderStatus)
    (notes : String) (trackingNumber : Option String) (now : Nat) :
    Except String (Order × List OrderStatusHistory) :=
  if role = .vendor ∧ ¬ vendorHasItems then
    .error "You do not have permission to update this order"
  else if role ≠ .vendor ∧ role ≠ .admin then
    .error "Only vendors and admins can update order status"
  else if ¬ can_update_status order.status newStatus then
    .error "Cannot change status"
  else
    let history := history ++
      [{ previousStatus := some order.status, newStatus := newStatus,
         changedBy := some changedBy, notes := notes }]
    let oldStatus := order.status
    let order := { order with status := newStatus }
    let order :=
      if newStatus = .confirmed ∧ oldStatus ≠ .confirmed then
        { order with confirmedAt := some now }
      else if newStatus = .shipped ∧ oldStatus ≠ .shipped then
        { order with shippedAt := some now,
                     trackingNumber :=
                       match trackingNumber with
                       | some t => some t
                       | none => order.trackingNumber }
      else if newStatus = .delivered ∧ oldStatus ≠ .delivered then
        { order with deliveredAt := some now }
      else order
    .ok (order, history)

/-- The order row persisted after a call to the status-update endpoint: on an
error response nothing was saved, so the stored row is the original one. -/
def update_order_status_persisted (role : Role) (vendorHasItems : Bool) (order : Order)
    (history : List OrderStatusHistory) (changedBy : Nat) (newStatus : OrderStatus)
    (notes : String) (trackingNumber : Option String) (now : Nat) :
    Order × List OrderStatusHistory :=
  match update_order_status role vendorHasItems order history changedBy newStatus
      notes trackingNumber now with
  | .ok res => res
  | .error _ => (order, history)

/-- `OrderDetailView.perform_update` (`orders/views.py` lines 228–250) together
with its serializer `OrderDetailSerializer`, whose writable fields include
`status` and `tracking_number` with no transition validation.  A history row is
appended when a status value was supplied and differs from the old one.  No
timestamp field is stamped on this path. -/
def perform_update (order : Order) (history : List OrderStatusHistory)
    (changedBy : Nat) (newStatus : Option OrderStatus) (tracking : Option String)
    (statusNotes : String) : Order × List OrderStatusHistory :=
  let updated := { order with
    status := newStatus.getD order.status,
    trackingNumber :=
      match tracking with
      | some t => some t
      | none => order.trackingNumber }
  match newStatus with
  | some s =>
      if order.status ≠ s then
        (updated, history ++
          [{ previousStatus := some order.status, newStatus := s,
             changedBy := some changedBy, notes := statusNotes }])
      else (updated, history)
  | none => (updated, history)

/-- `OrderDetailView.perform_destroy` (`orders/views.py` lines 252–267): DELETE
cancels the order unless it is delivered, cancelled or refunded.  The history
row is created after `instance.save()`, so its `previous_status` reads the
already-overwritten status — embedded faithfully. -/
def perform_destroy (order : Order) (history : List OrderStatusHistory)
    (changedBy : Nat) : Except String (Order × List OrderStatusHistory) :=
  if order.status = .delivered ∨ order.status = .cancelled ∨ order.status = .refunded then
    .error "Cannot cancel this order"
  else
    let order := { order with status := OrderStatus.cancelled }
    .ok (order, history ++
      [{ previousStatus := some order.status, newStatus := .cancelled,
         changedBy := some changedBy, notes := "Order cancelled by user" }])

/-- Refund status enum, `OrderRefund.REFUND_STATUS_CHOICES`. -/
inductive RefundStatus where
  | requested
  | approved
  | processing
  | completed
  | rejected
deriving DecidableEq, Repr

/-- The fields of an `OrderRefund` row touched by `process_refund`
(`orders/models.py` lines 183–253). -/
structure OrderRefund where
  status : RefundStatus
  refundAmount : ℚ
  processingFee : ℚ
  netRefundAmount : ℚ
  processedBy : Option Nat
  processedAt : Option Nat
deriving DecidableEq, Repr

/-- `OrderRefund.save` (`orders/models.py` lines 231–235): recomputes
`net_refund_amount` on every save. -/
def OrderRefund.save (r : OrderRefund) : OrderRefund :=
  { r with netRefundAmount := r.refundAmount - r.processingFee }

/-- `process_refund` (`orders/views.py` lines 567–601): admin-only PUT.  Sets
the refund's status from the request string, stamps processed-by/at, saves the
refund, and when the new status is `completed` sets the parent order's status
to `refunded` with no transition check and no history row. -/
def process_refund (role : Role) (userId : Nat) (refund : OrderRefund)
    (order : Order) (history : List OrderStatusHistory) (newStatus : String)
    (now : Nat) : Except String (OrderRefund × Order × List OrderStatusHistory) :=
  if role ≠ .admin then
    .error "Only admins can process refunds"
  else if ¬ (newStatus = "approved" ∨ newStatus = "rejected" ∨ newStatus = "completed") then
    .error "Invalid status"
  else
    let rstatus : RefundStatus :=
      if newStatus = "approved" then .approved
      else if newStatus = "rejected" then .rejected
      else .completed
    let refund := OrderRefund.save
      { refund with status := rstatus, processedBy := some userId, processedAt := some now }
    if newStatus = "completed" then
      .ok (refund, { order with status := OrderStatus.refunded }, history)
    else
      .ok (refund, order, history)

/-- A row of the `Product` model (`products/models.py`).  `stock_quantity` is
declared positive at the database, but the Python checkout code assigns to it
without clamping, so the in-memory value is modelled as `Int`. -/
structure Product where
  pid : Nat
  name : String
  price : ℚ
  stockQuantity : Int
  inStock : Bool
  isActive : Bool
deriving DecidableEq, Repr

/-- `Product.save` (`products/models.py` lines 69–73): marks the product
out of stock when `stock_quantity ≤ 0`. -/
def Product.save (p : Product) : Product :=
  if p.stockQuantity ≤ 0 then { p with inStock := false } else p

/-- `Product.is_available` (`products/models.py` lines 64–67). -/
def Product.is_available (p : Product) : Bool :=
  p.inStock && decide (p.stockQuantity > 0) && p.isActive

/-- A row of the `CartItem` model (`cart/models.py` lines 84–139): a
denormalized product snapshot plus a quantity. -/
structure CartItem where
  productId : Nat
  productName : String
  unitPrice : ℚ
  quantity : Nat
  vendor : Nat
deriving DecidableEq, Repr

/-- `Cart.subtotal` (second, bound definition in `cart/models.py`): the sum of
`unit_price * quantity` over the cart's items, no catalog re-read. -/
def cartSubtotal (items : List CartItem) : ℚ :=
  (items.map fun it => it.unitPrice * (it.quantity : ℚ)).sum

/-- Look a product up by primary key (`Product.objects.get(id=...)`). -/
def findProduct (ps : List Product) (pid : Nat) : Option Product :=
  ps.find? fun p => p.pid == pid

/-- Persist an updated product row back into the table. -/
def storeProduct (ps : List Product) (p : Product) : List Product :=
  ps.map fun q => if q.pid == p.pid then p else q

/-- The stock update the checkout loop performs for one cart line
(`cart/views.py` lines 1319–1329, the bound `convert_cart_to_order`):
`product.stock_quantity -= cart_item.quantity` with no clamping, out-of-stock
marking, `product.save()`; a vanished product is skipped. -/
def updateStockForItem (ps : List Product) (ci : CartItem) : List Product :=
  match findProduct ps ci.productId with
  | some p =>
      let p : Product := { p with stockQuantity := p.stockQuantity - (ci.quantity : Int) }
      let p : Product := if p.stockQuantity ≤ 0 then { p with inStock := false } else p
      storeProduct ps p.save
  | none => ps

/-- The `OrderItem` row the checkout loop creates for one cart line
(`cart/views.py` lines 1304–1317): `OrderItem.objects.create` without the
derived fields, so `commission_rate` defaults to 15.00 and `OrderItem.save`
computes `total_price` / `platform_commission` / `vendor_earnings`. -/
def mkOrderItem (ci : CartItem) : OrderItem :=
  OrderItem.save
    { vendor := ci.vendor, productName := ci.productName, unitPrice := ci.unitPrice,
      quantity := ci.quantity, totalPrice := 0, commissionRate := 15,
      platformCommission := 0, vendorEarnings := 0 }

/-- The persistent state the checkout touches. -/
structure Store where
  products : List Product
  cartItems : List CartItem
  orders : List Order
  orderItems : List OrderItem
deriving DecidableEq, Repr

/-- Failure-injection oracle for the datastore writes inside the checkout
transaction: any of the steps may raise. -/
structure FailureSpec where
  failTotals : Bool
  failOrderCreate : Bool
  failItemCreate : Nat → Bool
  failStockSave : Nat → Bool
  failCartClear : Bool

/-- The oracle under which every datastore write succeeds. -/
def noFail : FailureSpec :=
  { failTotals := false, failOrderCreate := false, failItemCreate := fun _ => false,
    failStockSave := fun _ => false, failCartClear := false }

/-- The per-cart-line loop of the bound `convert_cart_to_order`
(`cart/views.py` lines 1304–1329): create an `OrderItem`, then update the
product's stock, tolerating a vanished product. -/
def checkoutItems (env : FailureSpec) : Nat → List CartItem → Store → Except String Store
  | _, [], st => .ok st
  | i, ci :: rest, st =>
    if env.failItemCreate i then .error "Failed to create order" else
    let st := { st with orderItems := st.orderItems ++ [mkOrderItem ci] }
    if env.failStockSave i then .error "Failed to create order" else
    let st := { st with products := updateStockForItem st.products ci }
    checkoutItems env (i + 1) rest st

/-- The `Order` row `Order.objects.create(**order_data)` builds
(`cart/views.py` lines 1283–1301): status pending, `subtotal = cart.subtotal`,
16% tax, free shipping, no discount, `total_amount = cart.total_amount`
(= subtotal + tax + shipping fee), all from the cart snapshot with no catalog
re-read. -/
def newOrderHeader (items : List CartItem) : Order :=
  { status := .pending, subtotal := cartSubtotal items,
    taxAmount := cartSubtotal items * (16 / 100),
    shippingFee := 0, discountAmount := 0,
    totalAmount := cartSubtotal items + cartSubtotal items * (16 / 100) + 0,
    confirmedAt := none, shippedAt := none, deliveredAt := none,
    trackingNumber := none }

/-- The body of the `with transaction.atomic()` block of the bound
`convert_cart_to_order` (`cart/views.py` lines 1282–1332): totals from the
cart snapshot, order creation, the per-line loop, then `cart.clear()`. -/
def checkoutBody (env : FailureSpec) (st : Store) : Except String (Store × Order) :=
  if env.failTotals then .error "Failed to create order" else
  let order : Order := newOrderHeader st.cartItems
  if env.failOrderCreate then .error "Failed to create order" else
  let st := { st with orders := st.orders ++ [order] }
  match checkoutItems env 0 st.cartItems st with
  | .error e => .error e
  | .ok st =>
    if env.failCartClear then .error "Failed to create order" else
    .ok ({ st with cartItems := [] }, order)

/-- The bound `convert_cart_to_order` (`cart/views.py` lines 1250–1361):
empty-cart and field validation happen before any mutation; the transactional
body either commits wholesale or — on any exception inside it — the datastore
state rolls back to the snapshot (`transaction.atomic`). -/
def convert_cart_to_order (env : FailureSpec) (st : Store) (paymentMethod
    shippingAddress shippingCity shippingPhone : String) :
    Except String Order × Store :=
  if st.cartItems.isEmpty then (.error "Cart is empty", st)
  else if paymentMethod = "" ∨ shippingAddress = "" ∨ shippingCity = "" ∨
      shippingPhone = "" then
    (.error "required field missing", st)
  else if ¬ ["mpesa", "credit_card", "bank_transfer", "cash_on_delivery"].contains
      paymentMethod then
    (.error "invalid payment method", st)
  else if shippingAddress.toList.all Char.isWhitespace ∨
      shippingPhone.toList.all Char.isWhitespace then
    (.error "shipping validation failed", st)
  else
    match checkoutBody env st with
    | .ok (st', o) => (.ok o, st')
    | .error e => (.error e, st)

/-- `add_to_cart` (`cart/views.py` lines 59–155): validates the product
(existence, active, available, stock), then either increments the quantity of
the existing cart line for that product — re-checking the new total against
stock — or creates a new line from the catalog snapshot.  `defaultVendor` is
the fallback vendor the view picks for the snapshot. -/
def add_to_cart (products : List Product) (cart : List CartItem)
    (defaultVendor : Nat) (pid : Nat) (qty : Nat) : Except String (List CartItem) :=
  if qty < 1 then .error "quantity must be at least 1"
  else
    match products.find? (fun p => p.pid == pid && p.isActive) with
    | none => .error "Product not found"
    | some product =>
      if ¬ product.is_available then .error "Product is not available"
      else if (qty : Int) > product.stockQuantity then .error "Only limited items available in stock"
      else
        match cart.find? (fun it => it.productId == pid) with
        | some item =>
          let newQuantity := item.quantity + qty
          if (newQuantity : Int) > product.stockQuantity then
            .error "Cannot add more"
          else
            .ok (cart.map fun it =>
              if it.productId == pid then { it with quantity := newQuantity } else it)
        | none =>
          .ok (cart ++ [{ productId := pid, productName := product.name,
                          unitPrice := product.price, quantity := qty,
                          vendor := defaultVendor }])

/-- Big-endian decimal digits of a natural number, via explicit fuel (the fuel
argument only bounds the recursion depth; `natDigits n` supplies `n` itself,
which always suffices). -/
def natDigitsGo : Nat → Nat → List Nat
  | 0, n => [n % 10]
  | fuel + 1, n => if n < 10 then [n] else natDigitsGo fuel (n / 10) ++ [n % 10]

/-- Big-endian decimal digits of `n`, i.e. the characters of `str(n)` as digit
values.  `natDigits 1234 = [1, 2, 3, 4]`. -/
def natDigits (n : Nat) : List Nat := natDigitsGo n n

/-- Lexicographic comparison on digit lists, with a strict prefix ordered
first.  For two order numbers sharing the `ORD-YYYY-MM-` prefix, the string
comparison Django's `order_by('-order_number')` performs is exactly this
comparison on the digit lists of their numeric suffixes, because digit
characters are ordered like their values. -/
def lexLt : List Nat → List Nat → Bool
  | [], [] => false
  | [], _ :: _ => true
  | _ :: _, [] => false
  | a :: as, b :: bs => if a < b then true else if b < a then false else lexLt as bs

/-- `Order.objects.filter(order_number__startswith=base).order_by('-order_number').first()`
restricted to one month: the element of the month's suffix list whose decimal
rendering is string-largest. -/
def maxByLex : List Nat → Option Nat
  | [] => none
  | n :: ns =>
    match maxByLex ns with
    | none => some n
    | some m => if lexLt (natDigits m) (natDigits n) then some n else some m

/-- `Order.generate_order_number` (`orders/models.py` lines 80–97), with the
month's existing order numbers represented by their numeric suffixes
(`int(last_order.order_number.split('-')[-1])` recovers exactly the suffix):
1000 when the month has no orders, else the string-largest suffix plus one. -/
def generate_order_number (existing : List Nat) : Nat :=
  match maxByLex existing with
  | none => 1000
  | some m => m + 1

/-! ### Concrete fixtures used by witnesses and counterexamples -/

/-- The request fields of a checkout pass the view's validation. -/
def validCheckoutInput (st : Store) (paymentMethod shippingAddress shippingCity
    shippingPhone : String) : Prop :=
  st.cartItems.isEmpty = false ∧
  ¬ (paymentMethod = "" ∨ shippingAddress = "" ∨ shippingCity = "" ∨ shippingPhone = "") ∧
  ["mpesa", "credit_card", "bank_transfer", "cash_on_delivery"].contains paymentMethod = true ∧
  ¬ (shippingAddress.toList.all Char.isWhitespace ∨ shippingPhone.toList.all Char.isWhitespace)

/-- The `CartItem` uniqueness invariant of `unique_together = ['cart', 'product_id']`
(`cart/models.py` line 110): at most one cart line per product. -/
def atMostOnePerProduct (cart : List CartItem) : Prop :=
  (cart.map fun it => it.productId).Nodup

/-- An `OrderItem` passed through checkout with a one-cent product: exposes the
absence of rounding in the commission computation. -/
def c2item : OrderItem :=
  OrderItem.save
    { vendor := 1, productName := "Bead", unitPrice := 1 / 100, quantity := 1,
      totalPrice := 0, commissionRate := 15, platformCommission := 0, vendorEarnings := 0 }

/-- A delivered order with no refund yet. -/
def c3order : Order :=
  { status := .delivered, subtotal := 100, taxAmount := 16, shippingFee := 0,
    discountAmount := 0, totalAmount := 116, confirmedAt := some 1, shippedAt := some 2,
    deliveredAt := some 3, trackingNumber := some "TRK9" }

/-- An order in `processing` status. -/
def c7order : Order :=
  { status := .processing, subtotal := 50, taxAmount := 8, shippingFee := 0,
    discountAmount := 0, totalAmount := 58, confirmedAt := some 1, shippedAt := none,
    deliveredAt := none, trackingNumber := none }

/-- A freshly created pending order with no timestamps stamped. -/
def c8order : Order :=
  { status := .pending, subtotal := 50, taxAmount := 8, shippingFee := 0,
    discountAmount := 0, totalAmount := 58, confirmedAt := none, shippedAt := none,
    deliveredAt := none, trackingNumber := none }

/-- Store for the stock-clamping counterexample: stock 3, cart wants 5. -/
def stC4 : Store :=
  { products := [{ pid := 1, name := "Pan", price := 100, stockQuantity := 3,
                   inStock := true, isActive := true }],
    cartItems := [{ productId := 1, productName := "Pan", unitPrice := 100,
                    quantity := 5, vendor := 7 }],
    orders := [], orderItems := [] }

/-- Store for the stale-line counterexample: the cart line's product is gone
from the catalog. -/
def stC5 : Store :=
  { products := [],
    cartItems := [{ productId := 1, productName := "Pan", unitPrice := 100,
                    quantity := 2, vendor := 7 }],
    orders := [], orderItems := [] }

/-- Two-line cart over two stocked products, for the atomicity scenario. -/
def stC1 : Store :=
  { products := [{ pid := 1, name := "A", price := 10, stockQuantity := 9,
                   inStock := true, isActive := true },
                 { pid := 2, name := "B", price := 20, stockQuantity := 9,
                   inStock := true, isActive := true }],
    cartItems := [{ productId := 1, productName := "A", unitPrice := 10,
                    quantity := 1, vendor := 7 },
                  { productId := 2, productName := "B", unitPrice := 20,
                    quantity := 2, vendor := 7 }],
    orders := [], orderItems := [] }

/-- Oracle failing the stock save of the second cart line (index 1). -/
def envFail2 : FailureSpec := { noFail with failStockSave := fun i => i == 1 }

/-- Catalog with one well-stocked product, for the add-to-cart round trip. -/
def c9products : List Product :=
  [{ pid := 4, name := "Mug", price := 12, stockQuantity := 10,
     inStock := true, isActive := true }]

/-- A refund awaiting processing. -/
def c10refund : OrderRefund :=
  { status := .requested, refundAmount := 100, processingFee := 10,
    netRefundAmount := 90, processedBy := none, processedAt := none }

/-! ### Claim C2: OrderItem derived monetary fields -/

/-- Claim C2, counterexample.  The claim asserts
`platform_commission == round(total_price * commission_rate / 100, 2)` after
every save.  `OrderItem.save` applies no rounding: for a one-cent item at the
default 15% rate the saved commission is 0.0015, whereas the claimed rounded
value is 0.00 (no tie is involved, so every standard rounding mode agrees). -/
theorem C2_counterexample :
    c2item.platformCommission = 3 / 2000 ∧
    round2 (c2item.totalPrice * c2item.commissionRate / 100) = 0 ∧
    c2item.platformCommission ≠ round2 (c2item.totalPrice * c2item.commissionRate / 100) := by
  refine ⟨?_, ?_, ?_⟩ <;> norm_num [c2item, OrderItem.save, round2, round_eq]

/-- Claim C2, amended.  After every save of an `OrderItem` the three derived
monetary fields are recomputed from `unit_price`, `quantity` and
`commission_rate` alone — `total_price = unit_price * quantity`,
`platform_commission = total_price * commission_rate / 100` exactly (with no
rounding to 2 decimal places), `vendor_earnings = total_price -
platform_commission` — so independently supplied values for the three fields
can never persist, and the source fields themselves are unchanged. -/
theorem C2_save_recomputes (it : OrderItem) :
    it.save.totalPrice = it.unitPrice * it.quantity ∧
    it.save.platformCommission = it.unitPrice * it.quantity * it.commissionRate / 100 ∧
    it.save.vendorEarnings =
      it.unitPrice * it.quantity - it.unitPrice * it.quantity * it.commissionRate / 100 ∧
    it.save.unitPrice = it.unitPrice ∧
    it.save.quantity = it.quantity ∧
    it.save.commissionRate = it.commissionRate := by
  simp [OrderItem.save]

/-! ### Claim C10: refund completion side effect -/

/-- Claim C10.  For every refund and every current status of the parent order,
an admin processing the refund with requested status `completed` saves the
refund (status `completed`, processed-by/at stamped, net amount recomputed)
and sets the parent order's status to `refunded` unconditionally — no
transition-table consultation, no requirement that the order be `delivered`,
and the status-history table is returned untouched. -/
theorem C10_process_refund_completed (refund : OrderRefund) (order : Order)
    (history : List OrderStatusHistory) (userId now : Nat) :
    process_refund .admin userId refund order history "completed" now =
      .ok ({ refund with
              status := .completed,
              processedBy := some userId,
              processedAt := some now,
              netRefundAmount := refund.refundAmount - refund.processingFee },
           { order with status := .refunded }, history) := by
  rfl

/-! ### Claim C3: the status transition table -/

/-- The transition table contains no self-loops. -/
theorem no_self_transition (s t : OrderStatus) (h : can_update_status s t = true) : s ≠ t := by
  cases s <;> cases t <;> first | decide | exact absurd h (by decide)

/-- Claim C3, counterexample.  The claim says every entry point rejects any
(from, to) pair outside the table — "in particular delivered→confirmed".  The
generic order-update endpoint (`OrderDetailView.perform_update` with
`OrderDetailSerializer`, whose `status` field is writable and carries no
transition validation) accepts delivered→confirmed: the order comes back
changed, with status `confirmed` and no error. -/
theorem C3_counterexample :
    can_update_status .delivered .confirmed = false ∧
    (perform_update c3order [] 9 (some .confirmed) none "note").1.status = .confirmed ∧
    (perform_update c3order [] 9 (some .confirmed) none "note").1 ≠ c3order := by
  refine ⟨by decide, by rfl, ?_⟩
  intro h
  have : OrderStatus.confirmed = OrderStatus.delivered := congrArg Order.status h
  exact absurd this (by decide)

/-- Claim C3, amended.  The endpoints that consult the transition table
(`update_order_status` and the bulk update, both via `_can_update_status`)
accept exactly pending→{confirmed,cancelled}, confirmed→{processing,cancelled},
processing→{shipped,cancelled}, shipped→{delivered,cancelled},
delivered→refunded; any other pair — whatever the caller's role — is rejected
with an error and the stored order and history are unchanged, while an
accepted transition stores the new status.  The generic order-update endpoint,
however, applies any requested status without consulting the table. -/
theorem C3_transitions :
    (∀ s t : OrderStatus, can_update_status s t = true ↔
      (s, t) ∈ ([(.pending, .confirmed), (.pending, .cancelled),
                 (.confirmed, .processing), (.confirmed, .cancelled),
                 (.processing, .shipped), (.processing, .cancelled),
                 (.shipped, .delivered), (.shipped, .cancelled),
                 (.delivered, .refunded)] : List (OrderStatus × OrderStatus))) ∧
    (∀ (role : Role) (vh : Bool) (order : Order) (history : List OrderStatusHistory)
       (uid : Nat) (t : OrderStatus) (notes : String) (tr : Option String) (now : Nat),
      can_update_status order.status t = false →
      update_order_status_persisted role vh order history uid t notes tr now = (order, history)) ∧
    (∀ (order : Order) (history : List OrderStatusHistory) (uid : Nat) (t : OrderStatus)
       (notes : String) (tr : Option String) (now : Nat),
      can_update_status order.status t = true →
      (update_order_status .admin true order history uid t notes tr now).isOk = true ∧
      ∀ o' h', update_order_status .admin true order history uid t notes tr now = .ok (o', h') →
        o'.status = t) ∧
    (∀ (order : Order) (history : List OrderStatusHistory) (uid : Nat) (t : OrderStatus)
       (tr : Option String) (notes : String),
      (perform_update order history uid (some t) tr notes).1.status = t) := by
  refine ⟨?_, ?_, ?_, ?_⟩
  · intro s t; cases s <;> cases t <;> decide
  · intro role vh order history uid t notes tr now h
    cases role <;> cases vh <;> simp [update_order_status_persisted, update_order_status, h]
  · intro order history uid t notes tr now h
    constructor
    · simp only [update_order_status, h]
      rfl
    · intro o' h' heq
      simp only [update_order_status, h] at heq
      norm_num at heq
      obtain ⟨h1, h2⟩ := heq
      subst h1
      split_ifs <;> rfl
  · intro order history uid t tr notes
    by_cases h : order.status = t <;> simp [perform_update, h]

/-- Claim C3, witness: an admin attempt at the rejected delivered→confirmed
pair leaves the stored order and history untouched. -/
theorem C3_witness :
    update_order_status_persisted .admin true c3order [] 9 .confirmed "n" none 7 = (c3order, []) :=
  C3_transitions.2.1 .admin true c3order [] 9 .confirmed "n" none 7 (by decide)

/-! ### Claim C7: customer-initiated status changes -/

/-- Claim C7, counterexample.  The claim says a customer-initiated cancellation
succeeds only while the order is `pending` or `confirmed`.  The destroy
endpoint (`perform_destroy`) only rejects `delivered`/`cancelled`/`refunded`,
so a customer cancelling their own order in `processing` status succeeds. -/
theorem C7_counterexample :
    c7order.status = .processing ∧
    perform_destroy c7order [] 3 =
      .ok ({ c7order with status := .cancelled },
           [{ previousStatus := some .cancelled, newStatus := .cancelled,
              changedBy := some 3, notes := "Order cancelled by user" }]) := by
  exact ⟨rfl, rfl⟩

/-- Claim C7, amended.  A customer can never change an order's status through
the status-update endpoint (it rejects the customer role for every requested
status), and a customer-initiated cancellation through the destroy endpoint
succeeds exactly while the order's status is `pending`, `confirmed`,
`processing` or `shipped` — i.e. whenever it is not `delivered`, `cancelled`
or `refunded` — setting the status to `cancelled` and appending a history row
(whose `previous_status` records the already-overwritten `cancelled` value, a
faithful embedding of the code's ordering of save and history creation). -/
theorem C7_customer_cancellation :
    (∀ (vh : Bool) (order : Order) (history : List OrderStatusHistory) (uid : Nat)
       (t : OrderStatus) (notes : String) (tr : Option String) (now : Nat),
      update_order_status .customer vh order history uid t notes tr now =
        .error "Only vendors and admins can update order status") ∧
    (∀ (order : Order) (history : List OrderStatusHistory) (uid : Nat),
      (order.status = .delivered ∨ order.status = .cancelled ∨ order.status = .refunded) →
      perform_destroy order history uid = .error "Cannot cancel this order") ∧
    (∀ (order : Order) (history : List OrderStatusHistory) (uid : Nat),
      ¬ (order.status = .delivered ∨ order.status = .cancelled ∨ order.status = .refunded) →
      perform_destroy order history uid =
        .ok ({ order with status := .cancelled },
             history ++ [{ previousStatus := some .cancelled, newStatus := .cancelled,
                           changedBy := some uid, notes := "Order cancelled by user" }])) := by
  refine ⟨?_, ?_, ?_⟩
  · intro vh order history uid t notes tr now
    rfl
  · intro order history uid h
    simp [perform_destroy, h]
  · intro order history uid h
    simp [perform_destroy, h]

/-- Claim C7, witness: a pending order cancelled through the destroy endpoint. -/
theorem C7_witness :
    perform_destroy c8order [] 4 =
      .ok ({ c8order with status := .cancelled },
           [{ previousStatus := some .cancelled, newStatus := .cancelled,
              changedBy := some 4, notes := "Order cancelled by user" }]) :=
  C7_customer_cancellation.2.2 c8order [] 4 (by decide)

/-! ### Claim C8: timestamp stamping on status transitions -/

/-- Claim C8, counterexample.  The claim says the matching timestamp is
stamped "on every entry point that changes order status".  The generic
order-update endpoint performs the legal pending→confirmed transition without
stamping `confirmed_at`. -/
theorem C8_counterexample :
    can_update_status c8order.status .confirmed = true ∧
    (perform_update c8order [] 9 (some .confirmed) none "").1.status = .confirmed ∧
    (perform_update c8order [] 9 (some .confirmed) none "").1.confirmedAt = none := by
  exact ⟨by decide, rfl, rfl⟩

/-- Claim C8, amended.  On every transition the status-update endpoint
accepts, it stamps the matching timestamp field (`confirmed_at` for
confirmed, `shipped_at` for shipped, `delivered_at` for delivered) with the
current instant, stores a supplied tracking number when the transition is
into `shipped` (keeping the old value when none is supplied), and leaves all
three timestamps and the tracking number unchanged on transitions into
`cancelled` or `refunded`.  (Its guard is `old_status != new_status`, not
"first time reached", but the table admits no re-entry, so each accepted
transition into a status stamps it.)  The generic order-update endpoint, in
contrast, never touches any of the three timestamp fields. -/
theorem C8_timestamps :
    (∀ (role : Role) (vh : Bool) (order : Order) (history : List OrderStatusHistory)
       (uid : Nat) (t : OrderStatus) (notes : String) (tr : Option String) (now : Nat)
       (o' : Order) (h' : List OrderStatusHistory),
      update_order_status role vh order history uid t notes tr now = .ok (o', h') →
      (t = .confirmed → o'.confirmedAt = some now) ∧
      (t = .shipped → o'.shippedAt = some now ∧
        (∀ s, tr = some s → o'.trackingNumber = some s) ∧
        (tr = none → o'.trackingNumber = order.trackingNumber)) ∧
      (t = .delivered → o'.deliveredAt = some now) ∧
      (t = .cancelled ∨ t = .refunded →
        o'.confirmedAt = order.confirmedAt ∧ o'.shippedAt = order.shippedAt ∧
        o'.deliveredAt = order.deliveredAt ∧ o'.trackingNumber = order.trackingNumber)) ∧
    (∀ (order : Order) (history : List OrderStatusHistory) (uid : Nat)
       (ns : Option OrderStatus) (tr : Option String) (notes : String),
      (perform_update order history uid ns tr notes).1.confirmedAt = order.confirmedAt ∧
      (perform_update order history uid ns tr notes).1.shippedAt = order.shippedAt ∧
      (perform_update order history uid ns tr notes).1.deliveredAt = order.deliveredAt) := by
  constructor
  · intro role vh order history uid t notes tr now o' h' heq
    unfold update_order_status at heq
    split at heq
    · simp at heq
    · split at heq
      · simp at heq
      · split at heq
        · simp at heq
        · rename_i hcan
          rw [not_not] at hcan
          have hne : order.status ≠ t := no_self_transition _ _ hcan
          simp only [Except.ok.injEq, Prod.mk.injEq] at heq
          obtain ⟨ho, hh⟩ := heq
          subst ho
          refine ⟨?_, ?_, ?_, ?_⟩
          · intro ht; subst ht
            rw [if_pos ⟨rfl, hne⟩]
          · intro ht; subst ht
            rw [if_neg (by simp), if_pos ⟨rfl, hne⟩]
            refine ⟨rfl, ?_, ?_⟩
            · intro s hs; subst hs; rfl
            · intro hnone; subst hnone; rfl
          · intro ht; subst ht
            rw [if_neg (by simp), if_neg (by simp), if_pos ⟨rfl, hne⟩]
          · intro ht
            rcases ht with ht | ht <;> subst ht <;>
              rw [if_neg (by simp), if_neg (by simp), if_neg (by simp)] <;>
              exact ⟨rfl, rfl, rfl, rfl⟩
  · intro order history uid ns tr notes
    cases ns with
    | none => simp [perform_update]
    | some s =>
      simp only [perform_update]
      split <;> simp

/-- Claim C8, witness: an admin confirming a pending order stamps
`confirmed_at` with the transition instant. -/
theorem C8_witness :
    ({ c8order with status := .confirmed, confirmedAt := some 7 } : Order).confirmedAt = some 7 :=
  (C8_timestamps.1 .admin true c8order
      [] 9 .confirmed "x" none 7
      { c8order with status := .confirmed, confirmedAt := some 7 }
      [{ previousStatus := some .pending, newStatus := .confirmed,
         changedBy := some 9, notes := "x" }] rfl).1 rfl

/-! ### The checkout loop and transaction: helpers shared by C1, C4, C5 -/

/-- A successful run of the checkout's per-line loop appends one `OrderItem`
per cart line, folds the stock update over the lines, and touches neither the
orders table nor the cart. -/
theorem checkoutItems_ok (env : FailureSpec) :
    ∀ (l : List CartItem) (i : Nat) (st st' : Store),
      checkoutItems env i l st = .ok st' →
      st'.orders = st.orders ∧ st'.cartItems = st.cartItems ∧
      st'.orderItems = st.orderItems ++ l.map mkOrderItem ∧
      st'.products = l.foldl updateStockForItem st.products := by
  intro l
  induction l with
  | nil =>
    intro i st st' h
    simp only [checkoutItems] at h
    cases h
    simp
  | cons ci rest ih =>
    intro i st st' h
    simp only [checkoutItems] at h
    split at h
    · simp at h
    · split at h
      · simp at h
      · obtain ⟨ho, hc, hoi, hp⟩ := ih (i + 1) _ _ h
        refine ⟨by simpa using ho, by simpa using hc, ?_, ?_⟩
        · simpa [List.append_assoc] using hoi
        · simpa using hp

/-- With no injected datastore failure the per-line loop always succeeds —
in particular a cart line whose product has vanished does not fail it. -/
theorem checkoutItems_noFail :
    ∀ (l : List CartItem) (i : Nat) (st : Store),
      ∃ st', checkoutItems noFail i l st = .ok st' := by
  intro l
  induction l with
  | nil => intro i st; exact ⟨st, rfl⟩
  | cons ci rest ih =>
    intro i st
    simpa [checkoutItems, noFail] using ih (i + 1) _

/-- With no injected failure the transactional body succeeds. -/
theorem checkoutBody_noFail (st : Store) :
    ∃ res, checkoutBody noFail st = .ok res := by
  obtain ⟨st'', hitems⟩ := checkoutItems_noFail st.cartItems 0
    { st with orders := st.orders ++ [newOrderHeader st.cartItems] }
  refine ⟨({ st'' with cartItems := [] }, newOrderHeader st.cartItems), ?_⟩
  unfold checkoutBody
  rw [if_neg (by simp [noFail]), if_neg (by simp [noFail])]
  simp only []
  rw [hitems]
  simp [noFail]

/-- Decomposition of a committed transactional body: the returned order is
the freshly built header, and the final state is the loop's result with the
cart cleared. -/
theorem checkoutBody_ok (env : FailureSpec) (st st' : Store) (o : Order)
    (h : checkoutBody env st = .ok (st', o)) :
    o = newOrderHeader st.cartItems ∧
    ∃ st'', checkoutItems env 0 st.cartItems
        { st with orders := st.orders ++ [newOrderHeader st.cartItems] } = .ok st'' ∧
      st' = { st'' with cartItems := [] } := by
  unfold checkoutBody at h
  split at h
  · simp at h
  · split at h
    · simp at h
    · simp only [] at h
      split at h
      · simp at h
      · split at h
        · simp at h
        · rename_i st'' hitems hclear
          simp only [Except.ok.injEq, Prod.mk.injEq] at h
          obtain ⟨hst, ho⟩ := h
          subst hst
          subst ho
          exact ⟨rfl, st'', hitems, rfl⟩

/-- Decomposition of a checkout that returned success. -/
theorem convert_ok (env : FailureSpec) (st : Store) (pm sa sc sp : String)
    (o : Order) (st' : Store)
    (h : convert_cart_to_order env st pm sa sc sp = (.ok o, st')) :
    o = newOrderHeader st.cartItems ∧
    ∃ st'', checkoutItems env 0 st.cartItems
        { st with orders := st.orders ++ [o] } = .ok st'' ∧
      st' = { st'' with cartItems := [] } := by
  unfold convert_cart_to_order at h
  split at h
  · simp at h
  · split at h
    · simp at h
    · split at h
      · simp at h
      · split at h
        · simp at h
        · split at h
          · rename_i res st0 o0 heq
            simp only [Prod.mk.injEq, Except.ok.injEq] at h
            obtain ⟨ho, hst⟩ := h
            subst ho
            subst hst
            obtain ⟨horder, st'', hitems, hst'⟩ := checkoutBody_ok env st st0 o0 heq
            refine ⟨horder, st'', ?_, hst'⟩
            rw [horder]
            exact hitems
          · simp at h

/-! ### Claim C1: checkout atomicity -/

/-- Claim C1.  For every cart, every checkout input and every injected
failure of any step of the checkout sequence (totals computation, order
creation, order-item creation, stock decrement, cart clearing): when the
checkout returns an error the persisted state is exactly the initial one —
no `Order` row, no `OrderItem` rows, no stock change, cart untouched — and
when it returns success the cart has been cleared and the new pending order
persisted.  The cart is therefore cleared only when the order was fully
persisted. -/
theorem C1_checkout_atomic (env : FailureSpec) (st : Store)
    (pm sa sc sp : String) :
    (∀ e, (convert_cart_to_order env st pm sa sc sp).1 = .error e →
      (convert_cart_to_order env st pm sa sc sp).2 = st) ∧
    (∀ o, (convert_cart_to_order env st pm sa sc sp).1 = .ok o →
      (convert_cart_to_order env st pm sa sc sp).2.cartItems = [] ∧
      (convert_cart_to_order env st pm sa sc sp).2.orders = st.orders ++ [o] ∧
      o.status = .pending) := by
  unfold convert_cart_to_order
  split
  · exact ⟨fun e _ => rfl, fun o ho => by simp at ho⟩
  · split
    · exact ⟨fun e _ => rfl, fun o ho => by simp at ho⟩
    · split
      · exact ⟨fun e _ => rfl, fun o ho => by simp at ho⟩
      · split
        · exact ⟨fun e _ => rfl, fun o ho => by simp at ho⟩
        · split
          · rename_i res st' o heq
            refine ⟨fun e he => by simp at he, fun o' ho' => ?_⟩
            simp only [Except.ok.injEq] at ho'
            subst ho'
            obtain ⟨horder, st'', hitems, hst'⟩ := checkoutBody_ok env st st' o heq
            obtain ⟨horders, -, -, -⟩ := checkoutItems_ok env _ _ _ _ hitems
            subst hst'
            refine ⟨rfl, ?_, ?_⟩
            · simpa [horder] using horders
            · rw [horder]; rfl
          · exact ⟨fun _ _ => rfl, fun o ho => by simp at ho⟩

/-- Claim C1, witness: with the stock save of the second of two cart lines
failing, the state is rolled back wholesale (the spec's atomicity scenario);
with no failure the same cart checks out and ends empty. -/
theorem C1_witness :
    (convert_cart_to_order envFail2 stC1 "mpesa" "addr" "Nairobi" "phone").2 = stC1 ∧
    (convert_cart_to_order noFail stC1 "mpesa" "addr" "Nairobi" "phone").2.cartItems = [] := by
  constructor
  · exact (C1_checkout_atomic envFail2 stC1 "mpesa" "addr" "Nairobi" "phone").1
      "Failed to create order" rfl
  · exact ((C1_checkout_atomic noFail stC1 "mpesa" "addr" "Nairobi" "phone").2
      (newOrderHeader stC1.cartItems) rfl).1

/-! ### Claim C4: stock decrement semantics -/

/-- Claim C4, counterexample.  The claim says the decrement is clamped at
zero and stock never becomes negative.  The bound checkout decrements
without clamping: a cart line of quantity 5 against stock 3 checks out
successfully and leaves `stock_quantity = -2`. -/
theorem C4_counterexample :
    (convert_cart_to_order noFail stC4 "mpesa" "addr" "Nairobi" "phone").1.isOk = true ∧
    (convert_cart_to_order noFail stC4 "mpesa" "addr" "Nairobi" "phone").2.products =
      [{ pid := 1, name := "Pan", price := 100, stockQuantity := -2,
         inStock := false, isActive := true }] ∧
    ¬ ((-2 : Int) ≥ 0) := by
  exact ⟨rfl, rfl, by decide⟩

/-- Claim C4, amended.  A successful checkout folds the stock update over
the cart lines, and for each line the update is: when the product still
exists, store `stock_quantity - quantity` WITHOUT clamping (the in-memory
value may go negative) and mark the product not-in-stock exactly when the
result is ≤ 0 (otherwise the flag is kept); when the product has vanished,
skip the line, and the checkout still succeeds on every valid input. -/
theorem C4_stock_semantics :
    (∀ (env : FailureSpec) (st : Store) (pm sa sc sp : String) (o : Order) (st' : Store),
      convert_cart_to_order env st pm sa sc sp = (.ok o, st') →
      st'.products = st.cartItems.foldl updateStockForItem st.products) ∧
    (∀ (ps : List Product) (ci : CartItem) (p : Product),
      findProduct ps ci.productId = some p →
      updateStockForItem ps ci =
        storeProduct ps (Product.save
          { p with stockQuantity := p.stockQuantity - (ci.quantity : Int),
                   inStock := if p.stockQuantity - (ci.quantity : Int) ≤ 0 then false
                              else p.inStock })) ∧
    (∀ (ps : List Product) (ci : CartItem),
      findProduct ps ci.productId = none → updateStockForItem ps ci = ps) ∧
    (∀ p : Product, p.stockQuantity ≤ 0 → (Product.save p).inStock = false) ∧
    (∀ (st : Store) (pm sa sc sp : String), validCheckoutInput st pm sa sc sp →
      (convert_cart_to_order noFail st pm sa sc sp).1.isOk = true) := by
  refine ⟨?_, ?_, ?_, ?_, ?_⟩
  · intro env st pm sa sc sp o st' h
    obtain ⟨horder, st'', hitems, hst'⟩ := convert_ok env st pm sa sc sp o st' h
    obtain ⟨-, -, -, hp⟩ := checkoutItems_ok env _ _ _ _ hitems
    subst hst'
    simpa using hp
  · intro ps ci p h
    simp only [updateStockForItem, h]
    split_ifs <;> rfl
  · intro ps ci h
    simp [updateStockForItem, h]
  · intro p h
    simp [Product.save, h]
  · intro st pm sa sc sp hv
    obtain ⟨h1, h2, h3, h4⟩ := hv
    obtain ⟨⟨stres, ores⟩, hbody⟩ := checkoutBody_noFail st
    unfold convert_cart_to_order
    rw [if_neg (by simp [h1]), if_neg h2, if_neg (not_not_intro h3), if_neg h4, hbody]
    rfl

/-- Claim C4, witness: a two-line checkout's final catalog is the stock fold,
and a checkout whose only product vanished still succeeds. -/
theorem C4_witness :
    (convert_cart_to_order noFail stC1 "mpesa" "addr" "Nairobi" "phone").2.products =
      stC1.cartItems.foldl updateStockForItem stC1.products ∧
    (convert_cart_to_order noFail stC5 "mpesa" "addr" "Nairobi" "phone").1.isOk = true := by
  constructor
  · exact C4_stock_semantics.1 noFail stC1 "mpesa" "addr" "Nairobi" "phone"
      (newOrderHeader stC1.cartItems)
      ((convert_cart_to_order noFail stC1 "mpesa" "addr" "Nairobi" "phone").2) (by rfl)
  · exact C4_stock_semantics.2.2.2.2 stC5 "mpesa" "addr" "Nairobi" "phone"
      ⟨rfl, by decide, rfl, by decide⟩

/-! ### Claim C5: stale cart lines and the totals computation -/

/-- Claim C5, counterexample.  The claim says a cart line whose product no
longer exists is excluded from the totals and produces no `OrderItem`.  The
bound checkout never re-reads the catalog for totals: a cart holding one
line (price 100, qty 2) whose product is absent from the catalog checks out
with subtotal 200 — not 0 — and produces one `OrderItem`. -/
theorem C5_counterexample :
    (convert_cart_to_order noFail stC5 "mpesa" "addr" "Nairobi" "phone").1 =
      .ok (newOrderHeader stC5.cartItems) ∧
    (newOrderHeader stC5.cartItems).subtotal = 200 ∧
    (200 : ℚ) ≠ 0 ∧
    findProduct stC5.products 1 = none ∧
    (convert_cart_to_order noFail stC5 "mpesa" "addr" "Nairobi" "phone").2.orderItems.length = 1 := by
  refine ⟨rfl, ?_, by norm_num, rfl, rfl⟩
  norm_num [newOrderHeader, cartSubtotal, stC5]

/-- Claim C5, amended.  The checkout performs no catalog re-read for the
totals: every successful checkout's subtotal is the snapshot sum
`unit_price * quantity` over ALL cart lines, the total is subtotal plus 16%
tax plus the zero shipping fee, and exactly one `OrderItem` is appended per
cart line — regardless of whether each line's product still exists or is
active.  The live catalog is consulted only for the stock updates. -/
theorem C5_no_catalog_reread :
    ∀ (env : FailureSpec) (st : Store) (pm sa sc sp : String) (o : Order) (st' : Store),
      convert_cart_to_order env st pm sa sc sp = (.ok o, st') →
      o.subtotal = cartSubtotal st.cartItems ∧
      o.totalAmount = cartSubtotal st.cartItems + cartSubtotal st.cartItems * (16 / 100) + 0 ∧
      st'.orderItems = st.orderItems ++ st.cartItems.map mkOrderItem := by
  intro env st pm sa sc sp o st' h
  obtain ⟨horder, st'', hitems, hst'⟩ := convert_ok env st pm sa sc sp o st' h
  obtain ⟨-, -, hoi, -⟩ := checkoutItems_ok env _ _ _ _ hitems
  subst hst'
  subst horder
  exact ⟨rfl, rfl, by simpa using hoi⟩

/-- Claim C5, witness: the two-line checkout appends exactly its two order
items. -/
theorem C5_witness :
    (convert_cart_to_order noFail stC1 "mpesa" "addr" "Nairobi" "phone").2.orderItems =
      stC1.orderItems ++ stC1.cartItems.map mkOrderItem :=
  (C5_no_catalog_reread noFail stC1 "mpesa" "addr" "Nairobi" "phone"
    (newOrderHeader stC1.cartItems)
    ((convert_cart_to_order noFail stC1 "mpesa" "addr" "Nairobi" "phone").2) (by rfl)).2.2

/-! ### Claim C9: cart merge on repeated add -/

/-- A successful `add_to_cart` either merged into the existing line for that
product — the cart becomes a map bumping that line's quantity — or, when no
line for the product existed, appended one new line snapshotting the catalog
product. -/
theorem add_to_cart_ok_shape (products : List Product) (cart : List CartItem)
    (dv pid qty : Nat) (cart' : List CartItem)
    (h : add_to_cart products cart dv pid qty = .ok cart') :
    (∃ item, cart.find? (fun it => it.productId == pid) = some item ∧
      cart' = cart.map fun it =>
        if it.productId == pid then { it with quantity := item.quantity + qty } else it) ∨
    (cart.find? (fun it => it.productId == pid) = none ∧
      ∃ product : Product, cart' = cart ++
        [{ productId := pid,
           productName := product.name,
           unitPrice := product.price,
           quantity := qty,
           vendor := dv }]) := by
  unfold add_to_cart at h
  split at h
  · simp at h
  · rename_i hqty
    cases hfind : products.find? (fun p => p.pid == pid && p.isActive) with
    | none => rw [hfind] at h; simp at h
    | some product =>
      rw [hfind] at h
      simp only [] at h
      split at h
      · simp at h
      · split at h
        · simp at h
        · cases hitem : cart.find? (fun it => it.productId == pid) with
          | some item =>
            rw [hitem] at h
            simp only [] at h
            split at h
            · simp at h
            · simp only [Except.ok.injEq] at h
              exact .inl ⟨item, rfl, h.symm⟩
          | none =>
            rw [hitem] at h
            simp only [Except.ok.injEq] at h
            exact .inr ⟨rfl, product, h.symm⟩

/-- Claim C9.  `add_to_cart` preserves the at-most-one-`CartItem`-per-
(cart, product_id) invariant, and when the product is already in the cart a
successful add changes no row count and leaves the product's single line with
the summed quantity — repeated adds increment rather than duplicate. -/
theorem C9_cart_merge :
    (∀ (products : List Product) (cart : List CartItem) (dv pid qty : Nat)
       (cart' : List CartItem),
      atMostOnePerProduct cart → add_to_cart products cart dv pid qty = .ok cart' →
      atMostOnePerProduct cart') ∧
    (∀ (products : List Product) (cart : List CartItem) (dv pid qty : Nat)
       (cart' : List CartItem) (item : CartItem),
      cart.find? (fun it => it.productId == pid) = some item →
      add_to_cart products cart dv pid qty = .ok cart' →
      cart'.length = cart.length ∧
      cart'.find? (fun it => it.productId == pid) =
        some { item with quantity := item.quantity + qty }) := by
  constructor
  · intro products cart dv pid qty cart' hnd h
    rcases add_to_cart_ok_shape products cart dv pid qty cart' h with
      ⟨item, hitem, rfl⟩ | ⟨hnone, product, rfl⟩
    · unfold atMostOnePerProduct at hnd ⊢
      have hmap : ((cart.map fun it =>
          if it.productId == pid then { it with quantity := item.quantity + qty } else it).map
            fun it => it.productId) = cart.map fun it => it.productId := by
        rw [List.map_map]
        apply List.map_congr_left
        intro it _
        by_cases hc : it.productId = pid <;> simp [hc]
      rw [hmap]
      exact hnd
    · unfold atMostOnePerProduct at hnd ⊢
      rw [List.map_append]
      refine List.Nodup.append hnd (by simp) ?_
      intro a ha hb
      simp only [List.map_cons, List.map_nil, List.mem_singleton] at hb
      subst hb
      rw [List.find?_eq_none] at hnone
      simp only [List.mem_map] at ha
      obtain ⟨it, hmem, hpidEq⟩ := ha
      exact (hnone it hmem) (by simp [hpidEq])
  · intro products cart dv pid qty cart' item hitem h
    rcases add_to_cart_ok_shape products cart dv pid qty cart' h with
      ⟨item2, hitem2, rfl⟩ | ⟨hnone, product, rfl⟩
    · have hii : item2 = item := by
        rw [hitem] at hitem2
        exact (Option.some.injEq _ _ ▸ hitem2).symm ▸ rfl
      subst hii
      constructor
      · simp
      · rw [List.find?_map]
        have hcomp : ((fun it : CartItem => it.productId == pid) ∘ (fun it : CartItem =>
            if it.productId == pid then { it with quantity := item2.quantity + qty } else it)) =
            fun it : CartItem => it.productId == pid := by
          funext it
          by_cases hc : it.productId = pid <;> simp [hc]
        rw [hcomp, hitem]
        have hp : item2.productId = pid := by simpa using List.find?_some hitem
        simp [hp]
    · rw [hnone] at hitem
      simp at hitem

/-- Claim C9, witness: the spec's round trip.  Adding product 4 with
quantity 2 to an empty cart and then 3 more of it yields one single line of
quantity 5 and keeps the uniqueness invariant. -/
theorem C9_witness :
    add_to_cart c9products [] 1 4 2 =
      .ok [{ productId := 4,
             productName := "Mug",
             unitPrice := 12,
             quantity := 2,
             vendor := 1 }] ∧
    add_to_cart c9products
      [{ productId := 4,
         productName := "Mug",
         unitPrice := 12,
         quantity := 2,
         vendor := 1 }] 1 4 3 =
      .ok [{ productId := 4,
             productName := "Mug",
             unitPrice := 12,
             quantity := 5,
             vendor := 1 }] ∧
    atMostOnePerProduct
      [{ productId := 4,
         productName := "Mug",
         unitPrice := 12,
         quantity := 5,
         vendor := 1 }] := by
  refine ⟨rfl, rfl, ?_⟩
  exact C9_cart_merge.1 c9products
    [{ productId := 4,
       productName := "Mug",
       unitPrice := 12,
       quantity := 2,
       vendor := 1 }] 1 4 3 _ (by unfold atMostOnePerProduct; decide) rfl

/-! ### Claim C6: order number generation

`generate_order_number` takes the month's string-largest existing order
number (via `order_by('-order_number')`), not the numerically largest —
the two agree only while all suffixes have the same digit count. -/

/-- The fuel argument of `natDigitsGo` is irrelevant as long as it is at
least the number being rendered. -/
theorem natDigitsGo_congr :
    ∀ (n fuel₁ fuel₂ : Nat), n ≤ fuel₁ → n ≤ fuel₂ →
      natDigitsGo fuel₁ n = natDigitsGo fuel₂ n := by
  intro n
  induction n using Nat.strong_induction_on with
  | _ n ih =>
    intro fuel₁ fuel₂ h₁ h₂
    match fuel₁, fuel₂ with
    | 0, 0 => rfl
    | 0, b + 1 =>
      have : n = 0 := by omega
      subst this
      simp [natDigitsGo]
    | a + 1, 0 =>
      have : n = 0 := by omega
      subst this
      simp [natDigitsGo]
    | a + 1, b + 1 =>
      by_cases hn : n < 10
      · simp [natDigitsGo, hn]
      · simp only [natDigitsGo, if_neg hn]
        have hlt : n / 10 < n := Nat.div_lt_self (by omega) (by omega)
        rw [ih (n / 10) hlt a b (by omega) (by omega)]

theorem natDigits_lt10 (n : Nat) (h : n < 10) : natDigits n = [n] := by
  match n with
  | 0 => rfl
  | m + 1 => simp [natDigits, natDigitsGo, h]

theorem natDigits_ge10 (n : Nat) (h : 10 ≤ n) :
    natDigits n = natDigits (n / 10) ++ [n % 10] := by
  match n, h with
  | m + 1, h =>
    show natDigitsGo (m + 1) (m + 1) = _
    rw [natDigitsGo, if_neg (by omega)]
    have hle : (m + 1) / 10 ≤ m := by omega
    rw [natDigitsGo_congr ((m + 1) / 10) m ((m + 1) / 10) hle (Nat.le_refl _)]
    rfl

/-- A four-digit number renders as its four decimal digits. -/
theorem natDigits_four (n : Nat) (h1 : 1000 ≤ n) (h2 : n ≤ 9999) :
    natDigits n = [n / 1000, n / 100 % 10, n / 10 % 10, n % 10] := by
  rw [natDigits_ge10 n (by omega), natDigits_ge10 (n / 10) (by omega),
      natDigits_ge10 (n / 10 / 10) (by omega),
      natDigits_lt10 (n / 10 / 10 / 10) (by omega)]
  have e2 : n / 10 / 10 / 10 = n / 1000 := by omega
  have e1 : n / 10 / 10 = n / 100 := by omega
  rw [e2, e1]
  simp

/-- On equal-length (four-digit) suffixes the string order used by
`order_by('-order_number')` agrees with the numeric order. -/
theorem lexLt_four (m n : Nat) (hm1 : 1000 ≤ m) (hm2 : m ≤ 9999)
    (hn1 : 1000 ≤ n) (hn2 : n ≤ 9999) :
    lexLt (natDigits m) (natDigits n) = true ↔ m < n := by
  rw [natDigits_four m hm1 hm2, natDigits_four n hn1 hn2]
  simp only [lexLt]
  split_ifs <;> simp <;> omega

theorem maxByLex_eq_none (l : List Nat) : maxByLex l = none ↔ l = [] := by
  cases l with
  | nil => simp [maxByLex]
  | cons n ns =>
    simp only [maxByLex]
    cases hmx : maxByLex ns with
    | none => simp
    | some m0 =>
      split
      · simp
      · split <;> simp

/-- While every suffix in the month is four-digit, the string-largest order
number is the numerically largest suffix. -/
theorem maxByLex_spec :
    ∀ l : List Nat, (∀ x ∈ l, 1000 ≤ x ∧ x ≤ 9999) →
      ∀ m, maxByLex l = some m → m ∈ l ∧ ∀ x ∈ l, x ≤ m := by
  intro l
  induction l with
  | nil => intro _ m h; simp [maxByLex] at h
  | cons n ns ih =>
    intro hb m h
    simp only [maxByLex] at h
    cases hmx : maxByLex ns with
    | none =>
      rw [hmx] at h
      simp only [Option.some.injEq] at h
      subst h
      have : ns = [] := (maxByLex_eq_none ns).mp hmx
      subst this
      simp
    | some m0 =>
      rw [hmx] at h
      simp only [] at h
      have hbns : ∀ x ∈ ns, 1000 ≤ x ∧ x ≤ 9999 := fun x hx => hb x (by simp [hx])
      obtain ⟨hmem0, hmax0⟩ := ih hbns m0 hmx
      have hn := hb n (by simp)
      have hm0 := hbns m0 hmem0
      split at h
      · rename_i hlex
        simp only [Option.some.injEq] at h
        subst h
        have hlt : m0 < n := (lexLt_four m0 n hm0.1 hm0.2 hn.1 hn.2).mp hlex
        refine ⟨by simp, ?_⟩
        intro x hx
        rcases List.mem_cons.mp hx with rfl | hx
        · exact Nat.le_refl _
        · exact Nat.le_of_lt (Nat.lt_of_le_of_lt (hmax0 x hx) hlt)
      · rename_i hlex
        simp only [Option.some.injEq] at h
        subst h
        have hnlt : ¬ m0 < n := fun hc =>
          hlex ((lexLt_four m0 n hm0.1 hm0.2 hn.1 hn.2).mpr hc)
        refine ⟨List.mem_cons_of_mem n hmem0, ?_⟩
        intro x hx
        rcases List.mem_cons.mp hx with rfl | hx
        · omega
        · exact hmax0 x hx

/-- Claim C6, counterexample.  The claim says the new suffix is always one
greater than the maximum existing suffix in the month, giving collision-free
strictly increasing suffixes.  The code takes the STRING-largest existing
order number: once the month holds suffixes 9999 and 10000 (the state the
generator itself reaches after 9001 orders), the string-max is 9999, so the
next suffix is again 10000 — a collision with an existing order number, where
the claim demands 10001. -/
theorem C6_counterexample :
    generate_order_number [9999, 10000] = 10000 ∧
    (10000 : Nat) ∈ [9999, 10000] ∧
    generate_order_number [9999, 10000] ≠ 10001 := by
  decide

/-- Claim C6, amended.  While all existing suffixes of the current month are
four-digit (1000–9999, the claimed `NNNN` format): the first order of a month
gets suffix 1000, and otherwise the new suffix is one greater than the
maximum existing suffix, hence strictly greater than every existing suffix
and collision-free.  (Beyond 9999 the lexicographic maximum diverges from
the numeric maximum and the scheme collides.) -/
theorem C6_order_number :
    ∀ existing : List Nat, (∀ x ∈ existing, 1000 ≤ x ∧ x ≤ 9999) →
      (existing = [] → generate_order_number existing = 1000) ∧
      (existing ≠ [] →
        ∃ m ∈ existing, generate_order_number existing = m + 1 ∧ ∀ x ∈ existing, x ≤ m) ∧
      (∀ x ∈ existing, x < generate_order_number existing) ∧
      generate_order_number existing ∉ existing := by
  intro existing hb
  cases hmx : maxByLex existing with
  | none =>
    have he : existing = [] := (maxByLex_eq_none existing).mp hmx
    subst he
    refine ⟨fun _ => rfl, fun hne => absurd rfl hne, by simp, by simp⟩
  | some m =>
    obtain ⟨hmem, hmax⟩ := maxByLex_spec existing hb m hmx
    have hgen : generate_order_number existing = m + 1 := by
      unfold generate_order_number
      rw [hmx]
    refine ⟨?_, fun _ => ⟨m, hmem, hgen, hmax⟩, ?_, ?_⟩
    · intro he
      subst he
      simp at hmem
    · intro x hx
      rw [hgen]
      exact Nat.lt_succ_of_le (hmax x hx)
    · intro hc
      have := hmax _ hc
      omega

/-- Claim C6, witness: with suffixes 1000 and 1001 in the month the next
order gets 1002 = numeric max + 1. -/
theorem C6_witness :
    ∃ m ∈ ([1000, 1001] : List Nat), generate_order_number [1000, 1001] = m + 1 ∧
      ∀ x ∈ ([1000, 1001] : List Nat), x ≤ m :=
  (C6_order_number [1000, 1001] (by decide)).2.1 (by decide)

end Kipsunya
